import Mathlib

/-!
Verification of the langgraphjs-examples repository: a supervisor/worker
multi-agent workflow graph built on an LLM orchestration framework.

The definitions below are a shallow embedding of the TypeScript sources
(`src/unnamed/part_000`, the supervisor graph script, and
`src/intro/src/index.ts`, the single-agent intro script). Pure
configuration values and functions are translated directly; the external
framework components that the scripts delegate to (the graph execution
loop and the prebuilt react agent) are not present in the sources and are
modelled from the specification, as marked in their doc comments.
-/

/-- A chat message. The sources construct messages through framework
classes (HumanMessage, AIMessage, ...); the embedding keeps the message
kind as a string tag together with the content and the optional author
name, the three pieces of data the scripts read or write. -/
structure BaseMessage where
  mtype : String
  content : String
  name : Option String
deriving DecidableEq, Repr

/-- HumanMessage with a content and an author name, as built by the
worker nodes in part_000 lines 174 and 196. -/
def HumanMessage (content : String) (name : Option String) : BaseMessage :=
  ⟨"human", content, name⟩

/-- The framework terminal sentinel END, the designated end-of-run
routing value. -/
def END : String := "__end__"

/-- The framework start sentinel START. -/
def START : String := "__start__"

/-- Reducer of the messages channel, part_000 line 31:
`(x, y) => x.concat(y)`. -/
def messagesReducer (x y : List BaseMessage) : List BaseMessage :=
  x ++ y

/-- Reducer of the next channel, part_000 line 36:
`(x, y) => y ?? x ?? END`. Nullish values are embedded as `none`. -/
def nextReducer (x y : Option String) : String :=
  y.getD (x.getD END)

/-- The shared conversation state threaded through the graph,
part_000 lines 29 to 39 (AgentState): the message log and the routing
field. The next channel defaults to END. -/
structure AgentState where
  messages : List BaseMessage
  next : String
deriving DecidableEq, Repr

/-- A partial node output: a node may write either channel or neither,
mirroring the partial state updates returned by the nodes. -/
structure NodeOutput where
  messages : Option (List BaseMessage)
  next : Option String
deriving DecidableEq, Repr

/-- Merging one node output into the state: each channel is updated by
its reducer from part_000 lines 31 and 36, independently of the other.
An absent messages write contributes the empty list to the
concatenation; an absent next write is the nullish `y` of the next
reducer, so the stored value is kept. -/
def applyUpdate (s : AgentState) (u : NodeOutput) : AgentState :=
  { messages := messagesReducer s.messages (u.messages.getD [])
    next := nextReducer (some s.next) u.next }

example : messagesReducer [HumanMessage "a" none] [HumanMessage "b" none]
    = [HumanMessage "a" none, HumanMessage "b" none] := by decide
example : nextReducer (some "researcher") none = "researcher" := by decide
example : nextReducer none none = "__end__" := by decide

/-- Process environment as read by the scripts: the location API secret
TRIPADVISOR_API_KEY and the LLM secret OPENAI_API_KEY, each possibly
absent. -/
structure Env where
  tripadvisorApiKey : Option String
  openaiApiKey : Option String
deriving DecidableEq, Repr

/-- An opaque JSON payload as returned by the location API: the scripts
never inspect it, they only pass it through, so a flat record of string
fields together with plain strings is enough structure. -/
inductive Json where
  | obj : List (String × String) → Json
  | str : String → Json
deriving DecidableEq, Repr

/-- The empty record returned by the adapter on failure ( part_000
line 62 ). -/
def emptyRecord : Json := .obj []

/-- A failed outbound HTTP call: either a transport error or a non-2xx
status, both of which the HTTP client raises as exceptions that the
adapter catches. -/
inductive HttpError where
  | transport : String → HttpError
  | status : Nat → HttpError
deriving DecidableEq, Repr

/-- The request configuration object configDetail built by the adapter
( part_000 lines 47 to 55 ): method, URL from the template plus the
location id, the API key header read from the environment, and the fixed
user agent. -/
structure RequestConfig where
  method : String
  url : String
  apiKeyHeader : Option String
  userAgent : String
deriving DecidableEq, Repr

/-- configDetail as a function of the environment and the location id,
part_000 lines 47 to 55. The environment is a call-time argument because
the script reads process.env inside the tool callback, at every call. -/
def buildLocationConfig (env : Env) (locationId : String) : RequestConfig :=
  { method := "get"
    url := "http://api.tripadvisor.com/api/partner/2.0/location/" ++ locationId
    apiKeyHeader := env.tripadvisorApiKey
    userAgent := "cashew" }

/-- What an adapter call produces: the payload handed back to the caller
and the list of errors written to the console log. -/
structure AdapterResult where
  result : Json
  loggedErrors : List HttpError
deriving DecidableEq, Repr

/-- The get_location_info tool callback, part_000 lines 42 to 64 (the
same function appears in src/intro/src/index.ts lines 20 to 42): build
configDetail, issue one request through the HTTP client, return the
response data on success; on any failure log the error and return the
empty record instead of propagating the exception. The HTTP client is
the transport argument. -/
def getLocationInfo (env : Env) (transport : RequestConfig → Except HttpError Json)
    (locationId : String) : AdapterResult :=
  let configDetail := buildLocationConfig env locationId
  match transport configDetail with
  | .ok response => { result := response, loggedErrors := [] }
  | .error e => { result := emptyRecord, loggedErrors := [e] }

/-- The ChatOpenAI construction, src/intro/src/index.ts lines 55 to 59:
the LLM client object built once at startup, capturing the model name,
the temperature and the API key read from the environment at
construction time. -/
structure ChatOpenAIConfig where
  model : String
  temperature : Nat
  apiKey : Option String
deriving DecidableEq, Repr

/-- The llm constant of src/intro/src/index.ts lines 55 to 59, as a
function of the startup environment. -/
def llm (startupEnv : Env) : ChatOpenAIConfig :=
  { model := "gpt-4o", temperature := 0, apiKey := startupEnv.openaiApiKey }

/-- The declared worker names, part_000 line 81. -/
def members : List String := ["researcher", "tripadvisorApi"]

/-- The options list shown to the router, part_000 line 92:
`[END, ...members]`. -/
def options : List String := END :: members

/-- The closed single-choice schema of the routing tool, part_000
lines 95 to 101: `z.enum([END, ...members])` admits exactly the terminal
sentinel and the two declared worker names, so a routing decision is an
element of this inductive type. -/
inductive RouteOption where
  | finish
  | researcher
  | tripadvisorApi
deriving DecidableEq, Repr

/-- The string carried by a routing decision, i.e. the enum literal the
schema validated. -/
def RouteOption.toString : RouteOption → String
  | .finish => END
  | .researcher => "researcher"
  | .tripadvisorApi => "tripadvisorApi"

/-- Validation of a string against the routing enum schema: strings
outside the closed set are rejected by the schema ( zod enum parsing ),
part_000 line 99. -/
def parseRoute (s : String) : Option RouteOption :=
  if s = END then some .finish
  else if s = "researcher" then some .researcher
  else if s = "tripadvisorApi" then some .tripadvisorApi
  else none

/-- One entry of the JsonOutputToolsParser output: a parsed tool call
with its tool type and its arguments object. For the bound routing tool
the arguments are the fields of the args record. -/
structure ParsedToolCall where
  ttype : String
  args : List (String × String)
deriving DecidableEq, Repr

/-- The final stage of the supervisor chain, part_000 line 135:
`(x) => x[0].args`. Indexing an empty array gives undefined and reading
.args of undefined throws, embedded as the error case. -/
def selectFirstArgs (x : List ParsedToolCall) : Except String (List (String × String)) :=
  match x with
  | [] => .error "TypeError: cannot read properties of undefined"
  | c :: _ => .ok c.args

example : selectFirstArgs [⟨"route", [("next", "researcher")]⟩, ⟨"route", [("next", "__end__")]⟩]
    = .ok [("next", "researcher")] := rfl
example : selectFirstArgs [] = .error "TypeError: cannot read properties of undefined" := rfl

/-- Rendering of a payload into the text of a tool message fed back to
the reasoning step. -/
def Json.render : Json → String
  | .str s => s
  | .obj fs => "\x7b" ++ String.intercalate ", " (fs.map fun p => p.1 ++ ": " ++ p.2) ++ "\x7d"

/-- The external LLM boundary of one worker reasoning step: given the
visible history the model either requests one tool call with a string
argument or answers directly, and given a history it produces the text
of its final reply. -/
structure LLMBoundary where
  decideToolCall : List BaseMessage → Option String
  finalAnswer : List BaseMessage → String

/-- Modelled from the spec: createReactAgent ( part_000 lines 156 and
180 ) is prebuilt framework code not present under src/. Per the spec, a
worker performs a single bounded reasoning step in which the LLM may
invoke zero or one adapter calls before producing a final reply; an
adapter result, possibly the empty record, is fed back into the step as
a tool message, and the result messages extend the input history with
the tool round trip and the final reply. -/
def reactAgentInvoke (boundary : LLMBoundary) (adapter : String → AdapterResult)
    (s : AgentState) : List BaseMessage :=
  match boundary.decideToolCall s.messages with
  | none => s.messages ++ [⟨"ai", boundary.finalAnswer s.messages, none⟩]
  | some callArg =>
      let toolResult := adapter callArg
      let msgs := s.messages ++
        [⟨"ai", "tool_call: " ++ callArg, none⟩, ⟨"tool", toolResult.result.render, none⟩]
      msgs ++ [⟨"ai", boundary.finalAnswer msgs, none⟩]

/-- The researcher node, part_000 lines 166 to 177: invoke the agent on
the state, take the last message of the result, and return a single
HumanMessage carrying its content, attributed to the name Researcher.
Reading the last element of an empty result would throw, embedded as
`none`. The node writes only the messages channel. -/
def researcherNode (agentInvoke : AgentState → List BaseMessage)
    (s : AgentState) : Option NodeOutput :=
  let result := agentInvoke s
  result.getLast?.map fun lastMessage =>
    { messages := some [HumanMessage lastMessage.content (some "Researcher")]
      next := none }

/-- The tripadvisorApi node, part_000 lines 188 to 202: same shape as
the researcher node, attributed to the name TripadvisorAPI. -/
def tripadvisorApiNode (agentInvoke : AgentState → List BaseMessage)
    (s : AgentState) : Option NodeOutput :=
  let result := agentInvoke s
  result.getLast?.map fun lastMessage =>
    { messages := some [HumanMessage lastMessage.content (some "TripadvisorAPI")]
      next := none }

/-- The supervisor node: the supervisor chain ( part_000 lines 127 to
135 ) ends in the args record of the routing tool call, i.e. an update
writing only the next channel with the validated enum value; it
contributes no messages. The routing decision itself comes from the LLM
boundary, abstracted as a function of the state. -/
def supervisorNode (router : AgentState → RouteOption) (s : AgentState) : NodeOutput :=
  { messages := none, next := some (router s).toString }

/-- The nodes of the workflow graph, part_000 lines 208 to 212. -/
inductive ExecNode where
  | supervisor
  | researcher
  | tripadvisorApi
deriving DecidableEq, Repr

/-- The unconditional edges registered on the workflow, part_000
lines 215 to 217 ( one edge from every member to the supervisor ) and
line 224 ( the start edge ). -/
def staticEdges : List (String × String) :=
  ⟨START, "supervisor"⟩ :: members.map fun member => ⟨member, "supervisor"⟩

/-- The conditional edge function attached to the supervisor, part_000
line 221: `(x) => x.next`. -/
def conditionalEdge (x : AgentState) : String := x.next

/-- Resolution of the string produced by the conditional edge function
against the compiled graph: END ends the run, a node name selects that
node, anything else is an invalid destination. -/
def resolveDestination (s : String) : Option (Option ExecNode) :=
  if s = END then some none
  else if s = "researcher" then some (some .researcher)
  else if s = "tripadvisorApi" then some (some .tripadvisorApi)
  else none

/-- Outcome of a run: normal completion with the final state and the
two invocation counts, an abort at the step budget carrying the state
reached so far and the number of node invocations executed, a node
exception, or an unresolvable routing destination. -/
inductive RunOutcome where
  | ok : AgentState → Nat → Nat → RunOutcome
  | stepBudgetExceeded : AgentState → Nat → RunOutcome
  | nodeFailure : AgentState → RunOutcome
  | invalidDestination : AgentState → String → RunOutcome
deriving DecidableEq, Repr

/-- Modelled from the spec: the graph execution loop ( the framework
Pregel runner behind workflow.compile and graph.stream, part_000
lines 226 to 238 ) is not present under src/. Per the spec, the executor
repeatedly invokes the active node, merges its partial output into the
state with the two reducers, and re-evaluates routing: after the
supervisor it follows the conditional edge reading the merged next
field, after a worker it follows the static edge back to the supervisor;
it stops normally on the terminal sentinel, and aborts with a step
budget error when the configured recursion limit of node invocations is
exhausted before termination. The counters rc and wc record supervisor
and worker invocations so far. -/
def runFrom (nodeOutput : ExecNode → AgentState → Option NodeOutput) :
    Nat → ExecNode → AgentState → Nat → Nat → RunOutcome
  | 0, _, s, rc, wc => .stepBudgetExceeded s (rc + wc)
  | fuel + 1, node, s, rc, wc =>
      match nodeOutput node s with
      | none => .nodeFailure s
      | some out =>
          let s2 := applyUpdate s out
          match node with
          | .supervisor =>
              match resolveDestination (conditionalEdge s2) with
              | none => .invalidDestination s2 s2.next
              | some none => .ok s2 (rc + 1) wc
              | some (some w) => runFrom nodeOutput fuel w s2 (rc + 1) wc
          | _ => runFrom nodeOutput fuel .supervisor s2 rc (wc + 1)

/-- A whole run: the start edge enters the supervisor with the seed
messages and the defaulted next channel, under the configured recursion
limit ( part_000 line 237 uses recursionLimit 100 ). -/
def runGraph (nodeOutput : ExecNode → AgentState → Option NodeOutput)
    (seed : List BaseMessage) (recursionLimit : Nat) : RunOutcome :=
  runFrom nodeOutput recursionLimit .supervisor ⟨seed, END⟩ 0 0

/-- The message log carried by an outcome: the final state of a normal
completion, or the state surfaced with the abort or failure. -/
def RunOutcome.stateMessages : RunOutcome → List BaseMessage
  | .ok s _ _ => s.messages
  | .stepBudgetExceeded s _ => s.messages
  | .nodeFailure s => s.messages
  | .invalidDestination s _ => s.messages

/-- Whether an outcome is an abort at the step budget. -/
def RunOutcome.isBudgetAbort : RunOutcome → Bool
  | .stepBudgetExceeded _ _ => true
  | _ => false

/-- Whether an outcome is a normal completion. -/
def RunOutcome.isOk : RunOutcome → Bool
  | .ok _ _ _ => true
  | _ => false

/-- The number of node invocations executed when an outcome aborted at
the step budget, and 0 otherwise. -/
def RunOutcome.abortSteps : RunOutcome → Nat
  | .stepBudgetExceeded _ n => n
  | _ => 0

/-- The graph nodes of part_000 assembled into the executor interface:
the supervisor chain and the two worker nodes built on their react
agents. -/
def graphNodes (router : AgentState → RouteOption)
    (researcherInvoke tripInvoke : AgentState → List BaseMessage) :
    ExecNode → AgentState → Option NodeOutput
  | .supervisor, s => some (supervisorNode router s)
  | .researcher, s => researcherNode researcherInvoke s
  | .tripadvisorApi, s => tripadvisorApiNode tripInvoke s

/-! Helper lemmas shared by the claim theorems. -/

lemma applyUpdate_messages (s : AgentState) (u : NodeOutput) :
    (applyUpdate s u).messages = s.messages ++ u.messages.getD [] := rfl

lemma applyUpdate_next_of_none (s : AgentState) (u : NodeOutput) (h : u.next = none) :
    (applyUpdate s u).next = s.next := by
  simp [applyUpdate, nextReducer, h]

lemma reactAgentInvoke_shape (b : LLMBoundary) (adapter : String → AdapterResult)
    (s : AgentState) :
    ∃ ctx, reactAgentInvoke b adapter s = ctx ++ [⟨"ai", b.finalAnswer ctx, none⟩] := by
  unfold reactAgentInvoke
  cases b.decideToolCall s.messages with
  | none => exact ⟨s.messages, rfl⟩
  | some callArg =>
      exact ⟨s.messages ++
        [⟨"ai", "tool_call: " ++ callArg, none⟩, ⟨"tool", (adapter callArg).result.render, none⟩],
        rfl⟩

lemma tripadvisorApiNode_react (b : LLMBoundary) (adapter : String → AdapterResult)
    (s : AgentState) :
    ∃ ctx, tripadvisorApiNode (reactAgentInvoke b adapter) s =
      some { messages := some [HumanMessage (b.finalAnswer ctx) (some "TripadvisorAPI")]
             next := none } := by
  obtain ⟨ctx, hctx⟩ := reactAgentInvoke_shape b adapter s
  refine ⟨ctx, ?_⟩
  simp [tripadvisorApiNode, hctx, List.getLast?_concat]

lemma researcherNode_react (b : LLMBoundary) (adapter : String → AdapterResult)
    (s : AgentState) :
    ∃ ctx, researcherNode (reactAgentInvoke b adapter) s =
      some { messages := some [HumanMessage (b.finalAnswer ctx) (some "Researcher")]
             next := none } := by
  obtain ⟨ctx, hctx⟩ := reactAgentInvoke_shape b adapter s
  refine ⟨ctx, ?_⟩
  simp [researcherNode, hctx, List.getLast?_concat]

lemma runFrom_stateMessages (f : ExecNode → AgentState → Option NodeOutput) :
    ∀ (fuel : Nat) (node : ExecNode) (s : AgentState) (rc wc : Nat),
      ∃ t, (runFrom f fuel node s rc wc).stateMessages = s.messages ++ t := by
  intro fuel
  induction fuel with
  | zero =>
      intro node s rc wc
      exact ⟨[], by simp [runFrom, RunOutcome.stateMessages]⟩
  | succ n ih =>
      intro node s rc wc
      rw [runFrom]
      cases hout : f node s with
      | none => exact ⟨[], by simp [RunOutcome.stateMessages]⟩
      | some out =>
          cases node with
          | supervisor =>
              cases hdest : resolveDestination (conditionalEdge (applyUpdate s out)) with
              | none =>
                  exact ⟨out.messages.getD [], by
                    simp [hdest, RunOutcome.stateMessages, applyUpdate_messages]⟩
              | some dest =>
                  cases dest with
                  | none =>
                      exact ⟨out.messages.getD [], by
                        simp [hdest, RunOutcome.stateMessages, applyUpdate_messages]⟩
                  | some w =>
                      obtain ⟨t, ht⟩ := ih w (applyUpdate s out) (rc + 1) wc
                      exact ⟨out.messages.getD [] ++ t, by
                        simp [hdest, ht, applyUpdate_messages, List.append_assoc]⟩
          | researcher =>
              obtain ⟨t, ht⟩ := ih .supervisor (applyUpdate s out) rc (wc + 1)
              exact ⟨out.messages.getD [] ++ t, by
                simp [ht, applyUpdate_messages, List.append_assoc]⟩
          | tripadvisorApi =>
              obtain ⟨t, ht⟩ := ih .supervisor (applyUpdate s out) rc (wc + 1)
              exact ⟨out.messages.getD [] ++ t, by
                simp [ht, applyUpdate_messages, List.append_assoc]⟩

lemma supervisorNode_next_resolves (router : AgentState → RouteOption) (s : AgentState)
    (h : router s ≠ .finish) :
    ∃ w : ExecNode,
      resolveDestination (conditionalEdge (applyUpdate s (supervisorNode router s)))
        = some (some w) := by
  cases hr : router s with
  | finish => exact absurd hr h
  | researcher =>
      exact ⟨.researcher, by
        simp [supervisorNode, applyUpdate, nextReducer, conditionalEdge, hr,
          RouteOption.toString, resolveDestination, END]⟩
  | tripadvisorApi =>
      exact ⟨.tripadvisorApi, by
        simp [supervisorNode, applyUpdate, nextReducer, conditionalEdge, hr,
          RouteOption.toString, resolveDestination, END]⟩

lemma runFrom_budget_abort (router : AgentState → RouteOption)
    (rInv tInv : AgentState → List BaseMessage)
    (hfin : ∀ s, router s ≠ .finish)
    (hres : ∀ s, ∃ o, researcherNode rInv s = some o)
    (htrip : ∀ s, ∃ o, tripadvisorApiNode tInv s = some o) :
    ∀ (fuel : Nat) (node : ExecNode) (s : AgentState) (rc wc : Nat),
      ∃ p, runFrom (graphNodes router rInv tInv) fuel node s rc wc =
        .stepBudgetExceeded p (rc + wc + fuel) := by
  intro fuel
  induction fuel with
  | zero => intro node s rc wc; exact ⟨s, by simp [runFrom]⟩
  | succ n ih =>
      intro node s rc wc
      cases node with
      | supervisor =>
          obtain ⟨w, hw⟩ := supervisorNode_next_resolves router s (hfin s)
          obtain ⟨p, hp⟩ := ih w (applyUpdate s (supervisorNode router s)) (rc + 1) wc
          refine ⟨p, ?_⟩
          rw [runFrom]
          have harith : rc + 1 + wc + n = rc + wc + (n + 1) := by omega
          simp [graphNodes, hw, hp, harith]
      | researcher =>
          obtain ⟨o, ho⟩ := hres s
          obtain ⟨p, hp⟩ := ih .supervisor (applyUpdate s o) rc (wc + 1)
          refine ⟨p, ?_⟩
          rw [runFrom]
          have harith : rc + (wc + 1) + n = rc + wc + (n + 1) := by omega
          simp [graphNodes, ho, hp, harith]
      | tripadvisorApi =>
          obtain ⟨o, ho⟩ := htrip s
          obtain ⟨p, hp⟩ := ih .supervisor (applyUpdate s o) rc (wc + 1)
          refine ⟨p, ?_⟩
          rw [runFrom]
          have harith : rc + (wc + 1) + n = rc + wc + (n + 1) := by omega
          simp [graphNodes, ho, hp, harith]

/-! Claim theorems. -/

/-- C1: after each node invocation the partial output is merged into the
conversation state by two independent pure reducers. The messages
reducer returns the prior list concatenated with the node output, new
messages appended at the end with order preserved; the next reducer
returns y when y is defined, otherwise x when x is defined, otherwise
the terminal sentinel; and the per-step merge applies exactly these two
reducers, each channel independently of the other. -/
theorem C1_merge_reducers :
    (∀ x y : List BaseMessage, messagesReducer x y = x ++ y) ∧
    (∀ (x : Option String) (v : String), nextReducer x (some v) = v) ∧
    (∀ u : String, nextReducer (some u) none = u) ∧
    (nextReducer none none = END) ∧
    (∀ (s : AgentState) (u : NodeOutput),
      applyUpdate s u =
        { messages := messagesReducer s.messages (u.messages.getD [])
          next := nextReducer (some s.next) u.next }) := by
  refine ⟨fun x y => rfl, fun x v => rfl, fun u => rfl, rfl, fun s u => rfl⟩

/-- C2: the message log is append-only. Each merge step leaves the
existing list as an unchanged initial segment of the new list and never
decreases its length, and over a whole run the seed messages remain an
initial segment of the log carried by the outcome, so no message is
deleted, replaced or reordered. -/
theorem C2_append_only :
    (∀ (s : AgentState) (u : NodeOutput),
      s.messages.length ≤ (applyUpdate s u).messages.length ∧
      (applyUpdate s u).messages.take s.messages.length = s.messages ∧
      ∃ t, (applyUpdate s u).messages = s.messages ++ t) ∧
    (∀ (f : ExecNode → AgentState → Option NodeOutput)
       (seed : List BaseMessage) (limit : Nat),
      ∃ t, (runGraph f seed limit).stateMessages = seed ++ t) := by
  constructor
  · intro s u
    refine ⟨?_, ?_, ⟨u.messages.getD [], applyUpdate_messages s u⟩⟩
    · rw [applyUpdate_messages]
      simp
    · rw [applyUpdate_messages]
      exact List.take_left s.messages _
  · intro f seed limit
    exact runFrom_stateMessages f limit .supervisor ⟨seed, END⟩ 0 0

/-- C3: every routing decision admitted by the single-choice enumerated
schema lies in the closed set of the declared worker names plus the
terminal sentinel; a string outside that set is rejected by the schema;
and the destination the executor resolves after merging a supervisor
output is always a valid one. -/
theorem C3_routing_closure :
    (∀ r : RouteOption, r.toString ∈ options) ∧
    (∀ s : String, (parseRoute s).isSome ↔ s ∈ options) ∧
    (∀ (router : AgentState → RouteOption) (s : AgentState),
      (resolveDestination
        (conditionalEdge (applyUpdate s (supervisorNode router s)))).isSome) := by
  refine ⟨?_, ?_, ?_⟩
  · intro r
    cases r <;> simp [RouteOption.toString, options, members, END]
  · intro s
    simp only [parseRoute, options, members, END]
    split_ifs with h1 h2 h3 <;> simp_all
  · intro router s
    cases hr : router s <;>
      simp [applyUpdate, supervisorNode, nextReducer, conditionalEdge,
        resolveDestination, hr, RouteOption.toString, END]

/-- C3 witness: the closure instantiated at concrete values; the
undeclared name supervisor is rejected by the schema while the decision
researcher is admitted and lies in the closed set. -/
theorem C3_routing_closure_witness :
    RouteOption.researcher.toString ∈ options ∧
    ((parseRoute "supervisor").isSome ↔ "supervisor" ∈ options) ∧
    (resolveDestination
      (conditionalEdge (applyUpdate ⟨[], END⟩
        (supervisorNode (fun _ => .researcher) ⟨[], END⟩)))).isSome := by
  exact ⟨C3_routing_closure.1 .researcher, C3_routing_closure.2.1 "supervisor",
    C3_routing_closure.2.2 (fun _ => .researcher) ⟨[], END⟩⟩

/-- C4: from every worker state the next state is unconditionally the
Router: the only registered edge out of each declared worker leads to
the supervisor, the executor continues at the supervisor after a worker
invocation, and a worker output writes no next value, so merging it
leaves the next field of the state unchanged. -/
theorem C4_worker_frame :
    (∀ m ∈ members, (m, "supervisor") ∈ staticEdges) ∧
    (∀ m ∈ members, ∀ d, (m, d) ∈ staticEdges → d = "supervisor") ∧
    (∀ (inv : AgentState → List BaseMessage) (s : AgentState) (o : NodeOutput),
      researcherNode inv s = some o → o.next = none) ∧
    (∀ (inv : AgentState → List BaseMessage) (s : AgentState) (o : NodeOutput),
      tripadvisorApiNode inv s = some o → o.next = none) ∧
    (∀ (s : AgentState) (u : NodeOutput),
      u.next = none → (applyUpdate s u).next = s.next) ∧
    (∀ (f : ExecNode → AgentState → Option NodeOutput) (fuel : Nat)
       (s : AgentState) (rc wc : Nat) (out : NodeOutput),
      f .researcher s = some out →
      runFrom f (fuel + 1) .researcher s rc wc
        = runFrom f fuel .supervisor (applyUpdate s out) rc (wc + 1)) ∧
    (∀ (f : ExecNode → AgentState → Option NodeOutput) (fuel : Nat)
       (s : AgentState) (rc wc : Nat) (out : NodeOutput),
      f .tripadvisorApi s = some out →
      runFrom f (fuel + 1) .tripadvisorApi s rc wc
        = runFrom f fuel .supervisor (applyUpdate s out) rc (wc + 1)) := by
  refine ⟨?_, ?_, ?_, ?_, ?_, ?_, ?_⟩
  · intro m hm
    simp only [members, List.mem_cons, List.mem_singleton] at hm
    rcases hm with rfl | rfl | hm
    · decide
    · decide
    · simp at hm
  · intro m hm d hd
    simp only [staticEdges, members, START, List.map, List.mem_cons,
      Prod.mk.injEq, List.mem_singleton] at hd
    rcases hd with ⟨h1, h2⟩ | ⟨h1, h2⟩ | ⟨h1, h2⟩ | hd0
    · subst h1; simp [members] at hm
    · exact h2
    · exact h2
    · simp at hd0
  · intro inv s o h
    simp only [researcherNode, Option.map_eq_some'] at h
    obtain ⟨a, _, rfl⟩ := h
    rfl
  · intro inv s o h
    simp only [tripadvisorApiNode, Option.map_eq_some'] at h
    obtain ⟨a, _, rfl⟩ := h
    rfl
  · exact applyUpdate_next_of_none
  · intro f fuel s rc wc out h
    rw [runFrom]
    simp [h]
  · intro f fuel s rc wc out h
    rw [runFrom]
    simp [h]

/-- C4 witness: the frame conditions at a concrete worker, state and
output: the researcher edge leads to the supervisor, a concrete
researcher output writes no next value, merging it keeps next equal to
researcher, and one executor step from the researcher lands at the
supervisor with the worker counter incremented. -/
theorem C4_worker_frame_witness :
    ("researcher", "supervisor") ∈ staticEdges ∧
    ("tripadvisorApi", "supervisor") ∈ staticEdges ∧
    (applyUpdate ⟨[HumanMessage "q" none], "researcher"⟩
      ⟨some [HumanMessage "a" (some "Researcher")], none⟩).next = "researcher" ∧
    runFrom
        (graphNodes (fun _ => .finish)
          (fun s => s.messages ++ [⟨"ai", "a", none⟩])
          (fun s => s.messages ++ [⟨"ai", "a", none⟩]))
        1 .researcher ⟨[HumanMessage "q" none], "researcher"⟩ 0 0
      = runFrom
          (graphNodes (fun _ => .finish)
            (fun s => s.messages ++ [⟨"ai", "a", none⟩])
            (fun s => s.messages ++ [⟨"ai", "a", none⟩]))
          0 .supervisor
          (applyUpdate ⟨[HumanMessage "q" none], "researcher"⟩
            ⟨some [HumanMessage "a" (some "Researcher")], none⟩) 0 1 := by
  refine ⟨C4_worker_frame.1 "researcher" (by decide),
    C4_worker_frame.1 "tripadvisorApi" (by decide),
    C4_worker_frame.2.2.2.2.1 ⟨[HumanMessage "q" none], "researcher"⟩
      ⟨some [HumanMessage "a" (some "Researcher")], none⟩ rfl,
    C4_worker_frame.2.2.2.2.2.1 _ 0 ⟨[HumanMessage "q" none], "researcher"⟩ 0 0
      ⟨some [HumanMessage "a" (some "Researcher")], none⟩ (by decide)⟩

/-- C10: the supervisor chain derives the routing decision from the
first parsed tool call only: for a parser output with at least one tool
call the result is the args of the head and later tool calls are
ignored, and for an output with zero tool calls the chain throws instead
of producing any args record, in particular instead of a terminal
default. -/
theorem C10_first_tool_call :
    (∀ (c : ParsedToolCall) (rest : List ParsedToolCall),
      selectFirstArgs (c :: rest) = .ok c.args) ∧
    (∀ (c : ParsedToolCall) (rest1 rest2 : List ParsedToolCall),
      selectFirstArgs (c :: rest1) = selectFirstArgs (c :: rest2)) ∧
    (selectFirstArgs [] = .error "TypeError: cannot read properties of undefined") ∧
    (∀ args, selectFirstArgs [] ≠ .ok args) := by
  refine ⟨fun c rest => rfl, fun c r1 r2 => rfl, rfl, fun args h => ?_⟩
  simp [selectFirstArgs] at h

/-- C10 witness: at a concrete two-element parser output only the first
args record is selected, and at the empty output no terminal default is
produced. -/
theorem C10_first_tool_call_witness :
    selectFirstArgs [⟨"route", [("next", "researcher")]⟩, ⟨"route", [("next", END)]⟩]
      = .ok [("next", "researcher")] ∧
    selectFirstArgs [] ≠ .ok [("next", END)] :=
  ⟨C10_first_tool_call.1 ⟨"route", [("next", "researcher")]⟩ [⟨"route", [("next", END)]⟩],
    C10_first_tool_call.2.2.2 [("next", END)]⟩

/-- C8: whenever the outbound HTTP call of the location info adapter
fails, with a transport error or a non-2xx status, the adapter catches
the failure, logs the error, and hands its caller the empty record; the
return type of the embedding is a plain result, so no exception reaches
the caller. -/
theorem C8_adapter_swallows_failure :
    ∀ (env : Env) (transport : RequestConfig → Except HttpError Json)
      (locationId : String) (e : HttpError),
      transport (buildLocationConfig env locationId) = .error e →
      getLocationInfo env transport locationId
        = { result := emptyRecord, loggedErrors := [e] } := by
  intro env transport locationId e h
  simp [getLocationInfo, h]

/-- C8 witness: a transport answering every request with HTTP 500 makes
the adapter return the empty record and log the failure. -/
theorem C8_adapter_swallows_failure_witness :
    ((fun _ => Except.error (HttpError.status 500) :
        RequestConfig → Except HttpError Json)
      (buildLocationConfig ⟨some "key", none⟩ "229968") = .error (.status 500)) ∧
    getLocationInfo ⟨some "key", none⟩ (fun _ => .error (.status 500)) "229968"
      = { result := emptyRecord, loggedErrors := [HttpError.status 500] } :=
  ⟨rfl, C8_adapter_swallows_failure ⟨some "key", none⟩
    (fun _ => .error (.status 500)) "229968" (.status 500) rfl⟩

/-- The C9 claim formalized against the embedding: if both secrets were
read exactly once at process startup, the request configuration the
location adapter sends could not depend on the environment at call time,
i.e. any two call-time environments would yield the same
configuration. -/
def secretsReadOnceAtStartup : Prop :=
  ∀ (e1 e2 : Env) (locationId : String),
    buildLocationConfig e1 locationId = buildLocationConfig e2 locationId

/-- C9 counterexample: the adapter rereads TRIPADVISOR_API_KEY from the
environment at every call, so two call-time environments with different
keys produce different request configurations, refuting the
read-once-at-startup claim; moreover a call under an environment with no
location key does not fail fast but proceeds and degrades to the empty
record. -/
theorem C9_counterexample :
    ¬ secretsReadOnceAtStartup ∧
    (getLocationInfo ⟨none, some "sk"⟩
      (fun _ => .error (.status 401)) "229968").result = emptyRecord := by
  constructor
  · intro h
    have h2 := congrArg RequestConfig.apiKeyHeader
      (h ⟨some "k1", none⟩ ⟨some "k2", none⟩ "229968")
    simp [buildLocationConfig] at h2
  · rfl

/-- C9 amended: the LLM API key is captured once, when the ChatOpenAI
client is constructed at startup; the location API key is read from the
process environment at each adapter call; and absence of the location
key does not fail fast, at startup or at the call: the call proceeds
with an absent key header and a resulting failure is logged and
swallowed into the empty record. -/
theorem C9_amended_secrets :
    (∀ env : Env, (llm env).apiKey = env.openaiApiKey) ∧
    (∀ (env : Env) (locationId : String),
      (buildLocationConfig env locationId).apiKeyHeader = env.tripadvisorApiKey) ∧
    (∀ (transport : RequestConfig → Except HttpError Json)
       (locationId : String) (e : HttpError),
      transport (buildLocationConfig ⟨none, none⟩ locationId) = .error e →
      getLocationInfo ⟨none, none⟩ transport locationId
        = { result := emptyRecord, loggedErrors := [e] }) := by
  refine ⟨fun env => rfl, fun env locationId => rfl, ?_⟩
  intro transport locationId e h
  simp [getLocationInfo, h]

/-- C9 witness: the amended statement at concrete environments, a
concrete location id, and a transport refusing the connection. -/
theorem C9_amended_secrets_witness :
    (llm ⟨none, some "sk"⟩).apiKey = some "sk" ∧
    (buildLocationConfig ⟨some "k", none⟩ "229968").apiKeyHeader = some "k" ∧
    getLocationInfo ⟨none, none⟩
        (fun _ => .error (.transport "ECONNREFUSED")) "229968"
      = { result := emptyRecord
          loggedErrors := [HttpError.transport "ECONNREFUSED"] } :=
  ⟨C9_amended_secrets.1 ⟨none, some "sk"⟩,
    C9_amended_secrets.2.1 ⟨some "k", none⟩ "229968",
    C9_amended_secrets.2.2 (fun _ => .error (.transport "ECONNREFUSED"))
      "229968" (.transport "ECONNREFUSED") rfl⟩

/-- C7: a worker invocation returns exactly one new message, attributed
to the worker name and carrying the final answer content of its
reasoning step, and it returns it for every LLM boundary and every
transport, including a transport that always fails: the adapter failure
is degraded inside the round trip and never becomes a worker
exception. -/
theorem C7_worker_single_message :
    ∀ (b : LLMBoundary) (env : Env)
      (transport : RequestConfig → Except HttpError Json)
      (search : String → AdapterResult) (s : AgentState),
      (∃ ctx, tripadvisorApiNode
          (reactAgentInvoke b (getLocationInfo env transport)) s =
        some { messages := some [HumanMessage (b.finalAnswer ctx) (some "TripadvisorAPI")]
               next := none }) ∧
      (∃ ctx, researcherNode (reactAgentInvoke b search) s =
        some { messages := some [HumanMessage (b.finalAnswer ctx) (some "Researcher")]
               next := none }) := by
  intro b env transport search s
  exact ⟨tripadvisorApiNode_react b (getLocationInfo env transport) s,
    researcherNode_react b search s⟩

/-- C6: when the router answers with the terminal sentinel on its first
invocation, the run performs exactly one router invocation and zero
worker invocations and completes normally with the seed messages as the
whole log and the next field at the terminal sentinel; the router
contributes no messages. -/
theorem C6_first_router_finish :
    ∀ (router : AgentState → RouteOption)
      (rInv tInv : AgentState → List BaseMessage)
      (seed : List BaseMessage) (budget : Nat),
      router ⟨seed, END⟩ = .finish → 0 < budget →
      runGraph (graphNodes router rInv tInv) seed budget = .ok ⟨seed, END⟩ 1 0 := by
  intro router rInv tInv seed budget h hb
  cases budget with
  | zero => exact absurd hb (by simp)
  | succ n =>
      have h2 : router ⟨seed, "__end__"⟩ = RouteOption.finish := h
      rw [runGraph, runFrom]
      simp [graphNodes, supervisorNode, h2, RouteOption.toString, applyUpdate,
        messagesReducer, nextReducer, conditionalEdge, resolveDestination, END]

/-- C6 witness: with a router that always answers the terminal sentinel
and the seed question of the script, the run ends normally after one
router invocation and zero worker invocations, with the log holding only
the seed message. -/
theorem C6_first_router_finish_witness :
    ((fun _ : AgentState => RouteOption.finish)
      ⟨[HumanMessage "What is the exact address? locationId: 229968" none], END⟩
        = RouteOption.finish) ∧
    0 < 100 ∧
    runGraph
        (graphNodes (fun _ => .finish) (fun s => s.messages) (fun s => s.messages))
        [HumanMessage "What is the exact address? locationId: 229968" none] 100
      = .ok ⟨[HumanMessage "What is the exact address? locationId: 229968" none], END⟩
          1 0 :=
  ⟨rfl, by decide,
    C6_first_router_finish (fun _ => .finish) (fun s => s.messages)
      (fun s => s.messages)
      [HumanMessage "What is the exact address? locationId: 229968" none]
      100 rfl (by decide)⟩

/-- C5: a run whose router never answers the terminal sentinel aborts
with the step budget error exactly when the configured recursion limit
of node invocations is reached: the outcome is the budget abort and not
a normal completion, the number of executed node invocations equals the
budget, and the partial state surfaced with the abort still carries the
seed messages as an unchanged initial segment. -/
theorem C5_step_budget_abort :
    ∀ (router : AgentState → RouteOption) (b1 b2 : LLMBoundary)
      (search : String → AdapterResult) (env : Env)
      (transport : RequestConfig → Except HttpError Json)
      (seed : List BaseMessage) (budget : Nat),
      (∀ s, router s ≠ .finish) →
      (runGraph (graphNodes router (reactAgentInvoke b1 search)
          (reactAgentInvoke b2 (getLocationInfo env transport)))
        seed budget).isBudgetAbort = true ∧
      (runGraph (graphNodes router (reactAgentInvoke b1 search)
          (reactAgentInvoke b2 (getLocationInfo env transport)))
        seed budget).abortSteps = budget ∧
      (runGraph (graphNodes router (reactAgentInvoke b1 search)
          (reactAgentInvoke b2 (getLocationInfo env transport)))
        seed budget).isOk = false ∧
      (runGraph (graphNodes router (reactAgentInvoke b1 search)
          (reactAgentInvoke b2 (getLocationInfo env transport)))
        seed budget).stateMessages.take seed.length = seed := by
  intro router b1 b2 search env transport seed budget hfin
  have hres : ∀ s, ∃ o, researcherNode (reactAgentInvoke b1 search) s = some o := by
    intro s
    obtain ⟨ctx, hc⟩ := researcherNode_react b1 search s
    exact ⟨_, hc⟩
  have htrip : ∀ s, ∃ o,
      tripadvisorApiNode (reactAgentInvoke b2 (getLocationInfo env transport)) s
        = some o := by
    intro s
    obtain ⟨ctx, hc⟩ := tripadvisorApiNode_react b2 (getLocationInfo env transport) s
    exact ⟨_, hc⟩
  obtain ⟨p, hp⟩ := runFrom_budget_abort router _ _ hfin hres htrip
    budget .supervisor ⟨seed, END⟩ 0 0
  obtain ⟨t, ht⟩ := runFrom_stateMessages
    (graphNodes router (reactAgentInvoke b1 search)
      (reactAgentInvoke b2 (getLocationInfo env transport)))
    budget .supervisor ⟨seed, END⟩ 0 0
  unfold runGraph
  rw [hp]
  rw [hp] at ht
  refine ⟨rfl, by simp [RunOutcome.abortSteps], rfl, ?_⟩
  rw [RunOutcome.stateMessages] at ht ⊢
  rw [ht]
  exact List.take_left seed t

/-- C5 witness: a router that always names the researcher makes the run
with budget 3 abort at the budget with exactly 3 node invocations
executed and the seed still in place, and not complete normally. -/
theorem C5_step_budget_abort_witness :
    (runGraph (graphNodes (fun _ => .researcher)
        (reactAgentInvoke ⟨fun _ => none, fun _ => "r"⟩ (fun _ => ⟨emptyRecord, []⟩))
        (reactAgentInvoke ⟨fun _ => none, fun _ => "t"⟩
          (getLocationInfo ⟨none, none⟩ (fun _ => .error (.status 500)))))
      [HumanMessage "q" none] 3).isBudgetAbort = true ∧
    (runGraph (graphNodes (fun _ => .researcher)
        (reactAgentInvoke ⟨fun _ => none, fun _ => "r"⟩ (fun _ => ⟨emptyRecord, []⟩))
        (reactAgentInvoke ⟨fun _ => none, fun _ => "t"⟩
          (getLocationInfo ⟨none, none⟩ (fun _ => .error (.status 500)))))
      [HumanMessage "q" none] 3).abortSteps = 3 ∧
    (runGraph (graphNodes (fun _ => .researcher)
        (reactAgentInvoke ⟨fun _ => none, fun _ => "r"⟩ (fun _ => ⟨emptyRecord, []⟩))
        (reactAgentInvoke ⟨fun _ => none, fun _ => "t"⟩
          (getLocationInfo ⟨none, none⟩ (fun _ => .error (.status 500)))))
      [HumanMessage "q" none] 3).isOk = false ∧
    (runGraph (graphNodes (fun _ => .researcher)
        (reactAgentInvoke ⟨fun _ => none, fun _ => "r"⟩ (fun _ => ⟨emptyRecord, []⟩))
        (reactAgentInvoke ⟨fun _ => none, fun _ => "t"⟩
          (getLocationInfo ⟨none, none⟩ (fun _ => .error (.status 500)))))
      [HumanMessage "q" none] 3).stateMessages.take
        [HumanMessage "q" none].length = [HumanMessage "q" none] :=
  C5_step_budget_abort (fun _ => .researcher)
    ⟨fun _ => none, fun _ => "r"⟩ ⟨fun _ => none, fun _ => "t"⟩
    (fun _ => ⟨emptyRecord, []⟩) ⟨none, none⟩ (fun _ => .error (.status 500))
    [HumanMessage "q" none] 3
    (fun _ h => RouteOption.noConfusion h)
